import Mathlib

/-
Verification of the sale-confirmation saga of the agricultural platform
(services/sales, services/inventory, services/accounting, shared/events.py).

The Python services are shallowly embedded: each database table becomes a
Lean list of records, each HTTP handler or event handler becomes a pure
function from the service state (plus the nondeterministic inputs the code
draws from the environment: freshly generated UUIDs, the current date) to
the new state together with its HTTP result or published events.  Only the
fields that the embedded code paths actually read are modelled.  Monetary
amounts are `Int` (the code stores FCFA cents as integers), quantities are
`Rat` (the code uses `Decimal`), and ids are `String` (UUIDs in the code).
-/

set_option autoImplicit false

namespace AgriSaga

/-! ## Shared event envelope and bus (shared/events.py) -/

/-- Event envelope mirroring `EventEnvelope` of shared/events.py, polymorphic
in the payload type. -/
structure EventEnvelope (π : Type) where
  event_id : String
  event_type : String
  occurred_at : String
  producer : String
  correlation_id : String
  idempotency_key : Option String
  payload : π
  deriving DecidableEq, Repr

/-- Embedding of `EventPublisher.publish_event`.  The freshly generated UUIDs
(`str(uuid.uuid4())` for the event id and for the fallback correlation id) and
the timestamp are passed in as parameters.  The correlation id of the envelope
is `correlation_id or str(uuid.uuid4())`: the caller-supplied id when it is
truthy (present and nonempty), otherwise the fresh one. -/
def publish_event (π : Type) (producer freshEventId freshCorrelationId occurredAt : String)
    (event_type : String) (payload : π) (correlation_id : Option String)
    (idempotency_key : Option String) : EventEnvelope π :=
  { event_id := freshEventId
    event_type := event_type
    occurred_at := occurredAt
    producer := producer
    correlation_id :=
      match correlation_id with
      | some c => if c = "" then freshCorrelationId else c
      | none => freshCorrelationId
    idempotency_key := idempotency_key
    payload := payload }

/-- Per-consumer state of `EventConsumer`: the in-memory `processed_events`
set (modelled as a list of event ids) together with the application state the
registered handlers act on. -/
structure ConsumerState (σ : Type) where
  processed : List String
  app : σ
  deriving DecidableEq, Repr

/-- Acknowledgement outcome of one `_on_message` callback. -/
inductive Ack where
  | ack
  | nackRequeue
  | nackDrop
  deriving DecidableEq, Repr

/-- Embedding of `EventConsumer._on_message`: an event whose `event_id` is in
`processed_events` is acknowledged without running any handler; otherwise the
handler registered for the event type runs, the id is recorded and the message
is acknowledged; with no handler the message is negatively acknowledged
without requeue.  Handler exceptions (negative acknowledgement with requeue)
are outside this model: the handlers passed in are total functions. -/
def consumerOnMessage (σ π : Type)
    (handlers : String → Option (σ → EventEnvelope π → σ))
    (c : ConsumerState σ) (e : EventEnvelope π) : ConsumerState σ × Ack :=
  if c.processed.contains e.event_id then
    (c, .ack)
  else
    match handlers e.event_type with
    | some h => (⟨c.processed ++ [e.event_id], h c.app e⟩, .ack)
    | none => (c, .nackDrop)

/-! ## Sales service data model (services/sales/models.py) -/

/-- Sale status enumeration `SaleStatus`. -/
inductive SaleStatus where
  | pending
  | confirmed
  | rejected
  | cancelled
  deriving DecidableEq, Repr

/-- Row of the `sales` table; only the columns read by the embedded handlers
are modelled. -/
structure Sale where
  id : String
  sale_number : String
  customer_id : String
  sale_date : String
  status : SaleStatus
  subtotal : Int
  tax_amount : Int
  total_amount : Int
  idempotency_key : Option String
  correlation_id : Option String
  deriving DecidableEq, Repr

/-- Row of the `customers` table (only the primary key is read by the
embedded `create_sale` handler). -/
structure Customer where
  id : String
  deriving DecidableEq, Repr

/-- State of the Sales service database. -/
structure SalesState where
  customers : List Customer
  sales : List Sale
  deriving DecidableEq, Repr

/-! ## Sales event handlers (services/sales/main.py lines 505-567) -/

/-- Embedding of `handle_stock_decremented`: look up the sale named by the
payload's `reference_id` and flip its status to `CONFIRMED`, but only when it
is currently `PENDING`; in every other case the database is untouched.
A missing or falsy (empty) reference id and an unknown sale id are logged and
dropped. -/
def handle_stock_decremented (st : SalesState) (referenceId : Option String) : SalesState :=
  match referenceId with
  | none => st
  | some sid =>
    if sid = "" then st
    else
      match st.sales.find? (fun s => s.id == sid) with
      | none => st
      | some sale =>
        if sale.status = SaleStatus.pending then
          { st with
            sales := st.sales.map (fun s =>
              if s.id == sid then { s with status := SaleStatus.confirmed } else s) }
        else st

/-- Embedding of `handle_stock_failed`: identical lookup, flipping a
`PENDING` sale to `REJECTED` and leaving any other state untouched. -/
def handle_stock_failed (st : SalesState) (referenceId : Option String) : SalesState :=
  match referenceId with
  | none => st
  | some sid =>
    if sid = "" then st
    else
      match st.sales.find? (fun s => s.id == sid) with
      | none => st
      | some sale =>
        if sale.status = SaleStatus.pending then
          { st with
            sales := st.sales.map (fun s =>
              if s.id == sid then { s with status := SaleStatus.rejected } else s) }
        else st

/-! ## Generic list lemmas used across the services -/

/-- Appending to the right of a list does not change which element `find?`
returns, as long as the left part already finds one. -/
theorem find?_append_left {α : Type} (p : α → Bool) (l₁ l₂ : List α) (a : α)
    (h : l₁.find? p = some a) : (l₁ ++ l₂).find? p = some a := by
  induction l₁ with
  | nil => simp [List.find?] at h
  | cons x xs ih =>
    cases hx : p x with
    | true =>
      rw [List.find?_cons_of_pos _ hx] at h
      rw [List.cons_append, List.find?_cons_of_pos _ hx]
      exact h
    | false =>
      rw [List.find?_cons_of_neg _ (by simp [hx])] at h
      rw [List.cons_append, List.find?_cons_of_neg _ (by simp [hx])]
      exact ih h

/-- When the left part finds nothing, `find?` on the concatenation searches
the right part. -/
theorem find?_append_right {α : Type} (p : α → Bool) (l₁ l₂ : List α)
    (h : l₁.find? p = none) : (l₁ ++ l₂).find? p = l₂.find? p := by
  induction l₁ with
  | nil => simp
  | cons x xs ih =>
    cases hx : p x with
    | true => rw [List.find?_cons_of_pos _ hx] at h; exact absurd h (by simp)
    | false =>
      rw [List.find?_cons_of_neg _ (by simp [hx])] at h
      rw [List.cons_append, List.find?_cons_of_neg _ (by simp [hx])]
      exact ih h

/-- Updating exactly the elements selected by `p` through a map that keeps
the selection predicate invariant sends the first `p`-match `a` to `f a`. -/
theorem find?_map_update {α : Type} (p : α → Bool) (f : α → α) (l : List α) (a : α)
    (hf : ∀ x, p (f x) = p x) (h : l.find? p = some a) :
    (l.map (fun x => if p x then f x else x)).find? p = some (f a) := by
  induction l with
  | nil => simp [List.find?] at h
  | cons x xs ih =>
    cases hx : p x with
    | true =>
      rw [List.find?_cons_of_pos _ hx] at h
      simp only [List.map, hx, if_true]
      rw [List.find?_cons_of_pos _ (by rw [hf x]; exact hx)]
      cases h; rfl
    | false =>
      rw [List.find?_cons_of_neg _ (by simp [hx])] at h
      simp only [List.map, hx, Bool.false_eq_true, if_false]
      rw [List.find?_cons_of_neg _ (by simp [hx])]
      exact ih h

/-! ## Inventory service data model (services/inventory/models.py) -/

/-- Stock movement type enumeration `MovementType`. -/
inductive MovementType where
  | entree
  | sortie
  | ajustement
  | reservation
  | liberation
  deriving DecidableEq, Repr

/-- Row of the `products` table (only the primary key is read by the
embedded handler). -/
structure Product where
  id : String
  deriving DecidableEq, Repr

/-- Row of the append-only `stock_movements` table; only the columns the
embedded handler reads or writes are modelled.  `quantity` is a `Decimal`
in the code, modelled as `Rat`. -/
structure StockMovement where
  id : String
  product_id : String
  movement_type : MovementType
  quantity : Rat
  reference_type : Option String
  reference_id : Option String
  idempotency_key : Option String
  deriving DecidableEq, Repr

/-- State of the Inventory service database. -/
structure InvState where
  products : List Product
  movements : List StockMovement
  deriving DecidableEq, Repr

/-- One line of a `sale.created` payload as read by the Inventory handler:
`product_id` and `quantity`.  A missing `product_id` in the JSON is modelled
as the falsy empty string. -/
structure SaleLine where
  product_id : String
  quantity : Rat
  deriving DecidableEq, Repr

/-- Outcome event published by the Inventory handler. -/
inductive InvOutEvent where
  | stockFailed (referenceId reason productId : String)
  | stockDecremented (referenceId : String) (movementIds : List String)
  deriving DecidableEq, Repr

/-- Stock level of a product: `sum(quantity)` over all its stock movements,
`COALESCE`d to 0 (services/inventory/main.py lines 380-384). -/
def currentStock (st : InvState) (pid : String) : Rat :=
  ((st.movements.filter (fun m => m.product_id == pid)).map (fun m => m.quantity)).sum

/-- Existence check `db.query(Product).filter_by(id=product_id).first()`. -/
def productExists (st : InvState) (pid : String) : Bool :=
  st.products.any (fun p => p.id == pid)

/-- Deterministic idempotency key `sale_{sale_id}_{product_id}` of the
movement created for one sale line. -/
def movKey (saleId productId : String) : String :=
  "sale_" ++ saleId ++ "_" ++ productId

/-- Lookup `db.query(StockMovement).filter_by(idempotency_key=key).first()`. -/
def findMovByKey (ms : List StockMovement) (k : String) : Option StockMovement :=
  ms.find? (fun m => m.idempotency_key == some k)

/-- Stock movement inserted for one sale line (services/inventory/main.py
lines 406-414): type SORTIE, quantity `-abs(quantity)`. -/
def saleMovement (movId saleId productId : String) (q : Rat) : StockMovement :=
  { id := movId
    product_id := productId
    movement_type := MovementType.sortie
    quantity := -|q|
    reference_type := some "sale"
    reference_id := some saleId
    idempotency_key := some (movKey saleId productId) }

/-- Result of the validation scan over the payload lines. -/
inductive ValidRes where
  | ok
  | silent
  | failEvent (ev : InvOutEvent)
  deriving DecidableEq, Repr

/-- Embedding of the validation loop of `handle_sale_created`
(services/inventory/main.py lines 356-392): scan the lines in order; a line
with missing product info or non-positive quantity aborts silently (warning
logged, nothing published); a missing product or insufficient summed stock
aborts by publishing `stock.failed` with the corresponding reason.  No state
is written during validation. -/
def validateLines (st : InvState) (saleId : String) : List SaleLine → ValidRes
  | [] => ValidRes.ok
  | l :: rest =>
    if l.product_id = "" then ValidRes.silent
    else if l.quantity ≤ 0 then ValidRes.silent
    else if productExists st l.product_id = false then
      ValidRes.failEvent (InvOutEvent.stockFailed saleId "product_not_found" l.product_id)
    else if currentStock st l.product_id < l.quantity then
      ValidRes.failEvent (InvOutEvent.stockFailed saleId "insufficient_stock" l.product_id)
    else validateLines st saleId rest

/-- Embedding of the movement-creation loop of `handle_sale_created`
(services/inventory/main.py lines 394-417): for each line, if a movement
with the deterministic idempotency key already exists its id is reused;
otherwise a new movement is inserted (and immediately visible to the queries
of later iterations, as after `db.flush()`).  `fresh n` is the UUID generated
for the n-th inserted movement. -/
def createMovements (fresh : Nat → String) (saleId : String) :
    Nat → InvState → List SaleLine → InvState × List String
  | _, st, [] => (st, [])
  | n, st, l :: rest =>
    match findMovByKey st.movements (movKey saleId l.product_id) with
    | some m =>
      let r := createMovements fresh saleId n st rest
      (r.1, m.id :: r.2)
    | none =>
      let mv := saleMovement (fresh n) saleId l.product_id l.quantity
      let st' := { st with movements := st.movements ++ [mv] }
      let r := createMovements fresh saleId (n + 1) st' rest
      (r.1, mv.id :: r.2)

/-- Embedding of `handle_sale_created` of the Inventory service
(services/inventory/main.py lines 344-425): falsy `sale_id` or empty `lines`
are dropped; otherwise all lines are validated before any movement is
created; on success one movement per line is created (reusing existing
idempotent movements) and a single `stock.decremented` event is published
with the collected movement ids; on validation failure a single
`stock.failed` event is published and no movement is created. -/
def inv_handle_sale_created (fresh : Nat → String) (st : InvState)
    (saleId : String) (lines : List SaleLine) : InvState × List InvOutEvent :=
  if saleId = "" ∨ lines = [] then (st, [])
  else
    match validateLines st saleId lines with
    | ValidRes.silent => (st, [])
    | ValidRes.failEvent ev => (st, [ev])
    | ValidRes.ok =>
      let r := createMovements fresh saleId 0 st lines
      (r.1, [InvOutEvent.stockDecremented saleId r.2])

/-- When every payload line is well-formed (truthy product id, positive
quantity) but some line references a missing product or more than the summed
stock, the validation scan ends in a `stock.failed` outcome with one of the
two reason codes, before any movement is created. -/
theorem validate_fail_of_bad (st : InvState) (saleId : String) :
    ∀ (lines : List SaleLine),
      (∀ l ∈ lines, l.product_id ≠ "" ∧ 0 < l.quantity) →
      (∃ l ∈ lines,
        productExists st l.product_id = false ∨ currentStock st l.product_id < l.quantity) →
      ∃ pid reason,
        validateLines st saleId lines
            = ValidRes.failEvent (InvOutEvent.stockFailed saleId reason pid)
          ∧ (reason = "product_not_found" ∨ reason = "insufficient_stock") := by
  intro lines
  induction lines with
  | nil => intro _ hbad; simp at hbad
  | cons l rest ih =>
    intro hwf hbad
    obtain ⟨h1, h2⟩ := hwf l (List.mem_cons_self l rest)
    have h2' : ¬ l.quantity ≤ 0 := not_le.mpr h2
    cases hpe : productExists st l.product_id with
    | false =>
      refine ⟨l.product_id, "product_not_found", ?_, Or.inl rfl⟩
      simp only [validateLines, if_neg h1, if_neg h2', hpe, if_pos]
    | true =>
      by_cases hlt : currentStock st l.product_id < l.quantity
      · refine ⟨l.product_id, "insufficient_stock", ?_, Or.inr rfl⟩
        simp only [validateLines, if_neg h1, if_neg h2', hpe, Bool.true_eq_false, if_false,
          if_pos hlt]
      · have hrest : ∃ x ∈ rest,
            productExists st x.product_id = false ∨ currentStock st x.product_id < x.quantity := by
          obtain ⟨x, hx, hbadx⟩ := hbad
          rcases List.mem_cons.mp hx with hxl | hxr
          · subst hxl
            rcases hbadx with hb | hb
            · rw [hpe] at hb; exact absurd hb (by simp)
            · exact absurd hb hlt
          · exact ⟨x, hxr, hbadx⟩
        obtain ⟨pid, reason, hval, hr⟩ :=
          ih (fun x hx => hwf x (List.mem_cons_of_mem l hx)) hrest
        refine ⟨pid, reason, ?_, hr⟩
        simp only [validateLines, if_neg h1, if_neg h2', hpe, Bool.true_eq_false, if_false,
          if_neg hlt]
        exact hval

/-- The movement-creation loop never touches the product table. -/
theorem createMovements_products (fresh : Nat → String) (saleId : String) :
    ∀ (lines : List SaleLine) (n : Nat) (st : InvState),
      ((createMovements fresh saleId n st lines).1).products = st.products := by
  intro lines
  induction lines with
  | nil => intro n st; rfl
  | cons l rest ih =>
    intro n st
    cases hf : findMovByKey st.movements (movKey saleId l.product_id) with
    | some m => simp only [createMovements, hf]; exact ih n st
    | none => simp only [createMovements, hf]; exact ih (n + 1) _

/-- The movement-creation loop only appends to the append-only movement
log. -/
theorem createMovements_mono (fresh : Nat → String) (saleId : String) :
    ∀ (lines : List SaleLine) (n : Nat) (st : InvState),
      ∃ tail, ((createMovements fresh saleId n st lines).1).movements
        = st.movements ++ tail := by
  intro lines
  induction lines with
  | nil => intro n st; exact ⟨[], by simp [createMovements]⟩
  | cons l rest ih =>
    intro n st
    cases hf : findMovByKey st.movements (movKey saleId l.product_id) with
    | some m => simpa only [createMovements, hf] using ih n st
    | none =>
      obtain ⟨tail, htail⟩ := ih (n + 1)
        { st with movements := st.movements ++ [saleMovement (fresh n) saleId l.product_id l.quantity] }
      exact ⟨saleMovement (fresh n) saleId l.product_id l.quantity :: tail, by
        simp only [createMovements, hf]
        simpa using htail⟩

/-- An idempotency key present in the movement log stays present through any
run of the movement-creation loop. -/
theorem createMovements_keeps_key (fresh : Nat → String) (saleId : String)
    (lines : List SaleLine) (n : Nat) (st : InvState) (k : String)
    (h : (findMovByKey st.movements k).isSome) :
    (findMovByKey ((createMovements fresh saleId n st lines).1).movements k).isSome := by
  obtain ⟨tail, htail⟩ := createMovements_mono fresh saleId lines n st
  obtain ⟨m, hm⟩ := Option.isSome_iff_exists.mp h
  rw [htail]
  exact Option.isSome_iff_exists.mpr ⟨m, find?_append_left _ _ tail m hm⟩

/-- After the movement-creation loop has processed a list of lines, the
deterministic idempotency key of every processed line is present in the
movement log. -/
theorem createMovements_keys (fresh : Nat → String) (saleId : String) :
    ∀ (lines : List SaleLine) (n : Nat) (st : InvState) (l : SaleLine), l ∈ lines →
      (findMovByKey ((createMovements fresh saleId n st lines).1).movements
        (movKey saleId l.product_id)).isSome := by
  intro lines
  induction lines with
  | nil => intro n st l hl; simp at hl
  | cons x rest ih =>
    intro n st l hl
    cases hf : findMovByKey st.movements (movKey saleId x.product_id) with
    | some m =>
      simp only [createMovements, hf]
      rcases List.mem_cons.mp hl with hlx | hlr
      · subst hlx
        exact createMovements_keeps_key fresh saleId rest n st _
          (by rw [hf]; rfl)
      · exact ih n st l hlr
    | none =>
      simp only [createMovements, hf]
      rcases List.mem_cons.mp hl with hlx | hlr
      · subst hlx
        refine createMovements_keeps_key fresh saleId rest (n + 1) _ _ ?_
        show (findMovByKey (st.movements ++ [saleMovement (fresh n) saleId l.product_id l.quantity])
          (movKey saleId l.product_id)).isSome
        unfold findMovByKey at hf ⊢
        rw [find?_append_right _ _ _ hf]
        simp [saleMovement]
      · exact ih (n + 1) _ l hlr

/-- When the idempotency key of every line is already present in the
movement log, the movement-creation loop inserts nothing: every line finds
the existing movement and reuses its id. -/
theorem createMovements_noop (fresh : Nat → String) (saleId : String) :
    ∀ (lines : List SaleLine) (n : Nat) (st : InvState),
      (∀ l ∈ lines, (findMovByKey st.movements (movKey saleId l.product_id)).isSome) →
      ((createMovements fresh saleId n st lines).1) = st := by
  intro lines
  induction lines with
  | nil => intro n st _; rfl
  | cons x rest ih =>
    intro n st h
    obtain ⟨m, hm⟩ := Option.isSome_iff_exists.mp (h x (List.mem_cons_self x rest))
    simp only [createMovements, hm]
    exact ih n st (fun l hl => h l (List.mem_cons_of_mem x hl))

/-- Sample Inventory database for the two-line scenario of C2: product `p1`
has 10 units of prior stock-in, product `p2` has none. -/
def twoLineState : InvState :=
  ⟨[⟨"p1"⟩, ⟨"p2"⟩],
    [⟨"m0", "p1", MovementType.entree, 10, some "purchase", some "b0", none⟩]⟩

/-! ## Model of Python float arithmetic for the tax computation

The Accounting code computes `int((base_amount * tax_rate) / 10000)`.  In
Python 3, `/` on two ints is true division: it produces the IEEE-754
binary64 double nearest to the exact rational quotient (ties to even), and
`int(...)` then truncates that double toward zero.  The rounding step is
modelled exactly for quotients in `[1, 2^64)`, which covers every value a
64-bit monetary amount can produce here; quotients below 1 are returned
unrounded, which cannot change the truncated result because no quotient of
the form `k/10000` lies within half an ulp of 1. -/

/-- Fuel-bounded binary logarithm: `log2fuel fuel n` is the floor of the
base-2 logarithm of `n` for `1 ≤ n < 2 ^ fuel`. -/
def log2fuel : Nat → Nat → Nat
  | 0, _ => 0
  | fuel + 1, n => if n ≤ 1 then 0 else log2fuel fuel (n / 2) + 1

/-- Floor of the base-2 logarithm, valid for `n < 2 ^ 64`. -/
def natLog2 (n : Nat) : Nat := log2fuel 64 n

/-- Round a rational to the nearest integer, ties to even. -/
def roundHalfEven (q : Rat) : Int :=
  if q - ⌊q⌋ < 1 / 2 then ⌊q⌋
  else if 1 / 2 < q - ⌊q⌋ then ⌊q⌋ + 1
  else if ⌊q⌋ % 2 = 0 then ⌊q⌋ else ⌊q⌋ + 1

/-- Nearest IEEE-754 binary64 value of a nonnegative rational in the normal
range (exact for `q ≥ 1`; identity below 1, see the section comment): the
quotient is rounded, ties to even, onto the grid of spacing `2 ^ (e - 52)`
where `2 ^ e ≤ q < 2 ^ (e + 1)`. -/
def floatRound (q : Rat) : Rat :=
  if q < 1 then q
  else if natLog2 (Int.toNat ⌊q⌋) ≤ 52 then
    ((roundHalfEven (q * (2 : Rat) ^ (52 - natLog2 (Int.toNat ⌊q⌋))) : Int) : Rat)
      / (2 : Rat) ^ (52 - natLog2 (Int.toNat ⌊q⌋))
  else
    ((roundHalfEven (q / (2 : Rat) ^ (natLog2 (Int.toNat ⌊q⌋) - 52)) : Int) : Rat)
      * (2 : Rat) ^ (natLog2 (Int.toNat ⌊q⌋) - 52)

/-- Python `int(...)` applied to a float value: truncation toward zero. -/
def pyTrunc (q : Rat) : Int :=
  if 0 ≤ q then ⌊q⌋ else ⌈q⌉

/-- Embedding of the Python expression `int((base_amount * tax_rate) / 10000)`
used by `create_tax_record` (services/accounting/main.py line 378) and, with
`tax_rate = 1925`, by `handle_sale_created` (line 666) and
`handle_purchase_received` (line 714). -/
def pyTaxAmount (base rate : Int) : Int :=
  pyTrunc (floatRound (((base * rate : Int) : Rat) / 10000))

/-- Tax amount demanded by the specification: exact integer floor of
`base * rate / 10000`, no floating point. -/
def specTaxAmount (base rate : Nat) : Nat :=
  base * rate / 10000

/-- Characterisation of `Int.floor` on rationals through explicit bounds. -/
theorem floor_rat_eq (q : Rat) (z : Int) (h1 : (z : Rat) ≤ q) (h2 : q < z + 1) :
    ⌊q⌋ = z :=
  Int.floor_eq_iff.mpr ⟨h1, h2⟩

/-- Evaluation rule for `roundHalfEven` once the floor is known. -/
theorem roundHalfEven_eq (q : Rat) (z : Int) (hf : ⌊q⌋ = z) :
    roundHalfEven q
      = (if q - (z : Rat) < 1 / 2 then z
         else if 1 / 2 < q - (z : Rat) then z + 1
         else if z % 2 = 0 then z else z + 1) := by
  unfold roundHalfEven
  rw [hf]

/-- Evaluation rule for `floatRound` in the sub-ulp-1 binades (exponent at
most 52) once floor and exponent are known. -/
theorem floatRound_eq_lo (q : Rat) (z : Int) (e : Nat) (h1 : ¬ q < 1) (hf : ⌊q⌋ = z)
    (he : natLog2 (Int.toNat z) = e) (hle : e ≤ 52) :
    floatRound q
      = ((roundHalfEven (q * (2 : Rat) ^ (52 - e)) : Int) : Rat) / (2 : Rat) ^ (52 - e) := by
  unfold floatRound
  rw [if_neg h1, hf, he, if_pos hle]

/-- Evaluation of the Python float computation at base 10000, rate 1925:
the quotient 1925 is exactly representable and truncates to itself. -/
theorem pyTax_eval_10000 : pyTaxAmount 10000 1925 = 1925 := by
  have hq : (((10000 * 1925 : Int) : Rat) / 10000) = 19250000 / 10000 := by norm_num
  have hfq : ⌊(19250000 / 10000 : Rat)⌋ = 1925 := floor_rat_eq _ _ (by norm_num) (by norm_num)
  have hlog : natLog2 (Int.toNat 1925) = 10 := by decide
  have hx : ⌊(19250000 / 10000 : Rat) * (2 : Rat) ^ (52 - 10)⌋ = 8466239533875200 :=
    floor_rat_eq _ _ (by norm_num) (by norm_num)
  unfold pyTaxAmount
  rw [hq, floatRound_eq_lo _ 1925 10 (by norm_num) hfq hlog (by norm_num),
    roundHalfEven_eq _ 8466239533875200 hx, if_pos (by norm_num)]
  unfold pyTrunc
  rw [if_pos (by norm_num)]
  exact floor_rat_eq _ _ (by norm_num) (by norm_num)

/-- Evaluation at base 10001, rate 1925: the quotient 1925.1925 rounds to a
double slightly above 1925.1925 and still truncates to 1925 (floor, not
round). -/
theorem pyTax_eval_10001 : pyTaxAmount 10001 1925 = 1925 := by
  have hq : (((10001 * 1925 : Int) : Rat) / 10000) = 19251925 / 10000 := by norm_num
  have hfq : ⌊(19251925 / 10000 : Rat)⌋ = 1925 := floor_rat_eq _ _ (by norm_num) (by norm_num)
  have hlog : natLog2 (Int.toNat 1925) = 10 := by decide
  have hx : ⌊(19251925 / 10000 : Rat) * (2 : Rat) ^ (52 - 10)⌋ = 8467086157828587 :=
    floor_rat_eq _ _ (by norm_num) (by norm_num)
  unfold pyTaxAmount
  rw [hq, floatRound_eq_lo _ 1925 10 (by norm_num) hfq hlog (by norm_num),
    roundHalfEven_eq _ 8467086157828587 hx, if_neg (by norm_num), if_pos (by norm_num)]
  unfold pyTrunc
  rw [if_pos (by norm_num)]
  exact floor_rat_eq _ _ (by norm_num) (by norm_num)

/-- Evaluation at base 200000000000187, rate 1925: the exact quotient
38500000000035.9975 lies within half an ulp (an ulp is 1/128 in this binade)
of the next integer, so the double rounds UP across the integer boundary and
`int(...)` returns 38500000000036 although the exact floor is
38500000000035. -/
theorem pyTax_eval_big : pyTaxAmount 200000000000187 1925 = 38500000000036 := by
  have hq : (((200000000000187 * 1925 : Int) : Rat) / 10000) = 385000000000359975 / 10000 := by
    norm_num
  have hfq : ⌊(385000000000359975 / 10000 : Rat)⌋ = 38500000000035 :=
    floor_rat_eq _ _ (by norm_num) (by norm_num)
  have hlog : natLog2 (Int.toNat 38500000000035) = 45 := by decide
  have hx : ⌊(385000000000359975 / 10000 : Rat) * (2 : Rat) ^ (52 - 45)⌋ = 4928000000004607 :=
    floor_rat_eq _ _ (by norm_num) (by norm_num)
  unfold pyTaxAmount
  rw [hq, floatRound_eq_lo _ 38500000000035 45 (by norm_num) hfq hlog (by norm_num),
    roundHalfEven_eq _ 4928000000004607 hx, if_neg (by norm_num), if_pos (by norm_num)]
  unfold pyTrunc
  rw [if_pos (by norm_num)]
  exact floor_rat_eq _ _ (by norm_num) (by norm_num)

/-! ## Accounting service data model (services/accounting/models.py) -/

/-- HTTP error raised by an endpoint (`HTTPException(status_code, detail)`).
An error response leaves the database unchanged: every embedded endpoint
returns its state explicitly and raises before writing. -/
structure HttpError where
  status : Nat
  detail : String
  deriving DecidableEq, Repr

/-- Database-level error surfaced at commit time. -/
inductive DbError where
  | uniqueViolation
  deriving DecidableEq, Repr

/-- Tax type enumeration `TaxType`. -/
inductive TaxType where
  | tva_collectee
  | tva_deductible
  deriving DecidableEq, Repr

/-- Ledger entry type enumeration `EntryType`. -/
inductive EntryType where
  | vente
  | achat
  | paiement
  | ajustement
  | tva
  | stock
  deriving DecidableEq, Repr

/-- Row of the append-only `ledger_entries` table; only the columns the
embedded endpoints read or write are modelled.  `is_reversed` is an Integer
0/1 flag in the code, modelled as `Bool`. -/
structure LedgerEntry where
  id : String
  entry_date : String
  entry_type : EntryType
  debit_account_id : String
  credit_account_id : String
  amount : Int
  reference_type : Option String
  reference_id : Option String
  fiscal_month : String
  fiscal_year : String
  idempotency_key : Option String
  reverses_entry_id : Option String
  is_reversed : Bool
  deriving DecidableEq, Repr

/-- Row of the append-only `tax_records` table. -/
structure TaxRecord where
  id : String
  tax_type : TaxType
  base_amount : Int
  tax_rate : Int
  tax_amount : Int
  reference_type : String
  reference_id : String
  transaction_date : String
  fiscal_month : String
  fiscal_year : String
  idempotency_key : Option String
  deriving DecidableEq, Repr

/-- State of the Accounting service database. -/
structure AcctState where
  entries : List LedgerEntry
  taxRecords : List TaxRecord
  deriving DecidableEq, Repr

/-- Fiscal month `strftime('%Y-%m')` of a parsed `YYYY-MM-DD` date string:
its first seven characters. -/
def fiscalMonthOf (d : String) : String := d.take 7

/-- Fiscal year `strftime('%Y')` of a parsed `YYYY-MM-DD` date string: its
first four characters. -/
def fiscalYearOf (d : String) : String := d.take 4

/-- Commit of one `tax_records` insert under the unique constraint on
`idempotency_key` (services/accounting/models.py line 148): a second row
with an already-present key makes the commit fail, and the session is rolled
back, leaving the table unchanged. -/
def insertTaxRecord (st : AcctState) (t : TaxRecord) : AcctState × Except DbError Unit :=
  match t.idempotency_key with
  | some k =>
    if st.taxRecords.any (fun x => x.idempotency_key == some k) then
      (st, Except.error DbError.uniqueViolation)
    else
      ({ st with taxRecords := st.taxRecords ++ [t] }, Except.ok ())
  | none => ({ st with taxRecords := st.taxRecords ++ [t] }, Except.ok ())

/-- Embedding of the Accounting `handle_sale_created` event handler
(services/accounting/main.py lines 650-695): falsy `sale_id`, `total_ht` or
`sale_date` in the payload are dropped; otherwise a TVA-collectee tax record
with idempotency key `sale_{sale_id}_tva` (underscores around the sale id)
is inserted directly — the handler performs NO lookup of an existing record
before `db.add`, so the outcome of a redelivery is decided by the unique
constraint at commit time. -/
def acct_handle_sale_created (freshTaxId : String) (st : AcctState)
    (saleId : String) (total_ht : Int) (saleDate : String) :
    AcctState × Except DbError Unit :=
  if saleId = "" ∨ total_ht = 0 ∨ saleDate = "" then (st, Except.ok ())
  else
    insertTaxRecord st
      { id := freshTaxId
        tax_type := TaxType.tva_collectee
        base_amount := total_ht
        tax_rate := 1925
        tax_amount := pyTaxAmount total_ht 1925
        reference_type := "sale"
        reference_id := saleId
        transaction_date := saleDate
        fiscal_month := fiscalMonthOf saleDate
        fiscal_year := fiscalYearOf saleDate
        idempotency_key := some ("sale_" ++ saleId ++ "_tva") }

/-- Request body of the create-tax-record endpoint (`TaxRecordCreate`). -/
structure TaxRecordCreate where
  tax_type : TaxType
  base_amount : Int
  tax_rate : Int
  reference_type : String
  reference_id : String
  transaction_date : String
  idempotency_key : Option String
  deriving DecidableEq, Repr

/-- Embedding of the `create_tax_record` endpoint (services/accounting/main.py
lines 361-414): a truthy idempotency key that matches an existing record
returns that record unchanged; otherwise the tax amount is computed with the
Python float expression and a new record is appended. -/
def create_tax_record (freshTaxId : String) (st : AcctState) (td : TaxRecordCreate) :
    AcctState × Except HttpError TaxRecord :=
  match
    (match td.idempotency_key with
     | some k =>
       if k = "" then none else st.taxRecords.find? (fun x => x.idempotency_key == some k)
     | none => none : Option TaxRecord) with
  | some existing => (st, Except.ok existing)
  | none =>
    ({ st with taxRecords := st.taxRecords ++
        [{ id := freshTaxId
           tax_type := td.tax_type
           base_amount := td.base_amount
           tax_rate := td.tax_rate
           tax_amount := pyTaxAmount td.base_amount td.tax_rate
           reference_type := td.reference_type
           reference_id := td.reference_id
           transaction_date := td.transaction_date
           fiscal_month := fiscalMonthOf td.transaction_date
           fiscal_year := fiscalYearOf td.transaction_date
           idempotency_key := td.idempotency_key }] },
     Except.ok
       { id := freshTaxId
         tax_type := td.tax_type
         base_amount := td.base_amount
         tax_rate := td.tax_rate
         tax_amount := pyTaxAmount td.base_amount td.tax_rate
         reference_type := td.reference_type
         reference_id := td.reference_id
         transaction_date := td.transaction_date
         fiscal_month := fiscalMonthOf td.transaction_date
         fiscal_year := fiscalYearOf td.transaction_date
         idempotency_key := td.idempotency_key })

/-- Embedding of the `reverse_ledger_entry` endpoint
(services/accounting/main.py lines 310-354): an unknown entry is a 404; an
already-reversed entry is rejected with a 400 before anything is written;
otherwise a reversing entry with debit and credit swapped is added, the
original is flagged `is_reversed`, and the reversing entry is returned.
`reversingEntry` is the new row built at lines 330-344 of the endpoint:
debit and credit swapped, same amount and reference, `reverses_entry_id`
pointing at the original. -/
def reversingEntry (freshId today entryId : String) (e : LedgerEntry) : LedgerEntry :=
  { id := freshId
    entry_date := today
    entry_type := e.entry_type
    debit_account_id := e.credit_account_id
    credit_account_id := e.debit_account_id
    amount := e.amount
    reference_type := e.reference_type
    reference_id := e.reference_id
    fiscal_month := fiscalMonthOf today
    fiscal_year := fiscalYearOf today
    idempotency_key := none
    reverses_entry_id := some entryId
    is_reversed := false }

def reverse_ledger_entry (freshId today : String) (_notes : Option String)
    (st : AcctState) (entryId : String) : AcctState × Except HttpError LedgerEntry :=
  match st.entries.find? (fun e => e.id == entryId) with
  | none => (st, Except.error ⟨404, "Ledger entry not found"⟩)
  | some e =>
    if e.is_reversed then (st, Except.error ⟨400, "Entry already reversed"⟩)
    else
      ({ st with entries :=
          (st.entries.map (fun x => if x.id == entryId then { x with is_reversed := true } else x))
            ++ [reversingEntry freshId today entryId e] },
       Except.ok (reversingEntry freshId today entryId e))

/-- Sample unreversed ledger entry. -/
def ledgerEntryExample : LedgerEntry :=
  ⟨"e1", "2024-01-10", EntryType.vente, "a1", "a2", 5000, some "sale", some "s1",
    "2024-01", "2024", none, none, false⟩

/-- Sample Accounting database containing only `ledgerEntryExample`. -/
def acctStateExample : AcctState := ⟨[ledgerEntryExample], []⟩

/-- Tax record left behind by a first delivery of `sale.created` for sale
`s1`: its idempotency key is the deterministic `sale_s1_tva`. -/
def taxRecordExample : TaxRecord :=
  ⟨"t0", TaxType.tva_collectee, 10000, 1925, 1925, "sale", "s1", "2024-01-15",
    "2024-01", "2024", some "sale_s1_tva"⟩

/-- Sample Accounting database already containing `taxRecordExample`. -/
def acctStateWithTax : AcctState := ⟨[], [taxRecordExample]⟩

/-! ## Publish call sites relevant to correlation-id propagation -/

/-- Routing key of an Inventory outcome event. -/
def invEventType : InvOutEvent → String
  | InvOutEvent.stockFailed _ _ _ => "stock.failed"
  | InvOutEvent.stockDecremented _ _ => "stock.decremented"

/-- Embedding of the publish calls of the Inventory `sale.created` handler
(services/inventory/main.py lines 373-377, 387-391 and 421-425): every one
of them is `event_publisher.publish_event(event_type, payload)` — no
`correlation_id` and no `idempotency_key` argument is passed, so the
envelope gets the freshly generated fallback correlation id. -/
def inventoryPublishOutcome (freshEventId freshCorrelationId occurredAt : String)
    (ev : InvOutEvent) : EventEnvelope InvOutEvent :=
  publish_event InvOutEvent "inventory-service" freshEventId freshCorrelationId occurredAt
    (invEventType ev) ev none none

/-- Embedding of the `sale.created` publish of the Sales `create_sale`
endpoint (services/sales/main.py lines 330-355): it passes the correlation
id generated for the sale and the request's idempotency key. -/
def salesPublishSaleCreated (π : Type) (freshEventId freshCorrelationId occurredAt : String)
    (payload : π) (correlationId : String) (idem : Option String) : EventEnvelope π :=
  publish_event π "sales-service" freshEventId freshCorrelationId occurredAt
    "sale.created" payload (some correlationId) idem

/-! ## Sales service: the create-sale endpoint (services/sales/main.py 252-365) -/

/-- One line of a `POST /sales` request body (`SaleLineCreate`). -/
structure SaleLineCreate where
  product_id : String
  product_code : String
  product_name : String
  quantity : Rat
  unit_price : Int
  tax_rate : Rat
  deriving DecidableEq, Repr

/-- Request body of `POST /sales` (`SaleCreate`). -/
structure SaleCreateReq where
  customer_id : String
  sale_date : String
  lines : List SaleLineCreate
  idempotency_key : Option String
  deriving DecidableEq, Repr

/-- Idempotency lookup of `create_sale` (lines 274-281): performed only for
a truthy key, returning the first sale stored with that key. -/
def saleByKey (st : SalesState) (key? : Option String) : Option Sale :=
  match key? with
  | some k =>
    if k = "" then none else st.sales.find? (fun s => s.idempotency_key == some k)
  | none => none

/-- Sale row inserted by `create_sale` (lines 291-304): status PENDING, the
request's idempotency key, and the freshly generated correlation id. -/
def createdSale (freshSaleId freshCorrelationId saleNumber : String)
    (totals : Int × Int × Int) (req : SaleCreateReq) : Sale :=
  { id := freshSaleId
    sale_number := saleNumber
    customer_id := req.customer_id
    sale_date := req.sale_date
    status := SaleStatus.pending
    subtotal := totals.1
    tax_amount := totals.2.1
    total_amount := totals.2.2
    idempotency_key := req.idempotency_key
    correlation_id := some freshCorrelationId }

/-- Embedding of the `create_sale` endpoint (services/sales/main.py lines
252-365).  The checks run in source order: customer existence (404), at
least one line (400), and only then the idempotency lookup, which returns
the previously stored sale; otherwise a new PENDING sale is appended.  The
generated sale id, correlation id and sale number are parameters, as are the
totals computed by `calculate_sale_totals` (that helper mixes `Decimal` and
Python float arithmetic; the claims about this endpoint do not depend on the
totals, which are copied into the stored row unchanged). -/
def create_sale (freshSaleId freshCorrelationId saleNumber : String)
    (totals : Int × Int × Int) (st : SalesState) (req : SaleCreateReq) :
    SalesState × Except HttpError Sale :=
  if st.customers.any (fun c => c.id == req.customer_id) = false then
    (st, Except.error ⟨404, "Customer not found"⟩)
  else if req.lines = [] then
    (st, Except.error ⟨400, "Sale must have at least one line"⟩)
  else
    match saleByKey st req.idempotency_key with
    | some existing => (st, Except.ok existing)
    | none =>
      ({ st with sales := st.sales ++ [createdSale freshSaleId freshCorrelationId saleNumber totals req] },
       Except.ok (createdSale freshSaleId freshCorrelationId saleNumber totals req))

/-- Sample sale stored with idempotency key `idem1`. -/
def saleWithKeyExample : Sale :=
  ⟨"s2", "VTE-20240116-0001", "c1", "2024-01-16", SaleStatus.confirmed,
    100, 19, 119, some "idem1", some "corrX"⟩

/-- Sample Sales database containing customer `c1` and `saleWithKeyExample`. -/
def salesStateWithKey : SalesState := ⟨[⟨"c1"⟩], [saleWithKeyExample]⟩

/-! ## Claim C1: the sale state machine is sticky -/

/-- Sample pending sale used to witness the state-machine theorem. -/
def pendingSaleExample : Sale :=
  ⟨"s1", "VTE-20240115-0001", "c1", "2024-01-15", SaleStatus.pending,
    5000, 962, 5962, none, some "corr0"⟩

/-- Sample Sales-service database containing only `pendingSaleExample`. -/
def salesStateExample : SalesState := ⟨[⟨"c1"⟩], [pendingSaleExample]⟩

end AgriSaga

/-- C1: the Sales event handlers change a sale's status only when it is
currently PENDING: `stock.decremented` whose payload `reference_id` matches
the sale flips PENDING to CONFIRMED, `stock.failed` flips PENDING to
REJECTED, and a sale already in a terminal state (CONFIRMED, REJECTED or
CANCELLED) is left unchanged by any later `stock.decremented` or
`stock.failed` event for its id. -/
theorem sale_status_transitions_sticky :
    ∀ (st : AgriSaga.SalesState) (sid : String) (s : AgriSaga.Sale),
      sid ≠ "" →
      st.sales.find? (fun x => x.id == sid) = some s →
      ((s.status = AgriSaga.SaleStatus.pending →
          (AgriSaga.handle_stock_decremented st (some sid)).sales.find? (fun x => x.id == sid)
              = some { s with status := AgriSaga.SaleStatus.confirmed }
          ∧ (AgriSaga.handle_stock_failed st (some sid)).sales.find? (fun x => x.id == sid)
              = some { s with status := AgriSaga.SaleStatus.rejected })
        ∧ (s.status ≠ AgriSaga.SaleStatus.pending →
            AgriSaga.handle_stock_decremented st (some sid) = st
            ∧ AgriSaga.handle_stock_failed st (some sid) = st)) := by
  intro st sid s hsid hfind
  constructor
  · intro hp
    constructor
    · simp only [AgriSaga.handle_stock_decremented, hsid, if_neg, hfind, hp, if_true]
      exact AgriSaga.find?_map_update (fun x => x.id == sid)
        (fun x => { x with status := AgriSaga.SaleStatus.confirmed }) st.sales s
        (fun _ => rfl) hfind
    · simp only [AgriSaga.handle_stock_failed, hsid, if_neg, hfind, hp, if_true]
      exact AgriSaga.find?_map_update (fun x => x.id == sid)
        (fun x => { x with status := AgriSaga.SaleStatus.rejected }) st.sales s
        (fun _ => rfl) hfind
  · intro hnp
    constructor
    · simp only [AgriSaga.handle_stock_decremented, hsid, if_neg, hfind, hnp, if_false]
    · simp only [AgriSaga.handle_stock_failed, hsid, if_neg, hfind, hnp, if_false]

/-- Witness for C1 at a concrete pending sale. -/
theorem sale_status_transitions_sticky_witness :
    (AgriSaga.handle_stock_decremented AgriSaga.salesStateExample (some "s1")).sales.find?
        (fun x => x.id == "s1")
      = some { AgriSaga.pendingSaleExample with status := AgriSaga.SaleStatus.confirmed }
    ∧ (AgriSaga.handle_stock_failed AgriSaga.salesStateExample (some "s1")).sales.find?
        (fun x => x.id == "s1")
      = some { AgriSaga.pendingSaleExample with status := AgriSaga.SaleStatus.rejected } :=
  (sale_status_transitions_sticky AgriSaga.salesStateExample "s1" AgriSaga.pendingSaleExample
    (by decide) (by decide)).1 rfl

/-- C2: the Inventory `sale.created` handler validates every line against the
summed stock-movement history before creating any movement: when any line's
product is missing or any line's quantity exceeds that product's movement
sum, no stock movement is created for any line and a single `stock.failed`
event is published, with reason `product_not_found` or `insufficient_stock`;
in particular, for a sale with two lines where the first has sufficient stock
and the second does not, neither line produces a movement and `stock.failed`
is published with reason `insufficient_stock`. -/
theorem inventory_all_or_nothing :
    (∀ (fresh : Nat → String) (st : AgriSaga.InvState) (saleId : String)
        (lines : List AgriSaga.SaleLine),
      saleId ≠ "" →
      (∀ l ∈ lines, l.product_id ≠ "" ∧ 0 < l.quantity) →
      (∃ l ∈ lines,
        AgriSaga.productExists st l.product_id = false
        ∨ AgriSaga.currentStock st l.product_id < l.quantity) →
      (AgriSaga.inv_handle_sale_created fresh st saleId lines).1 = st
      ∧ ∃ pid reason,
          (AgriSaga.inv_handle_sale_created fresh st saleId lines).2
            = [AgriSaga.InvOutEvent.stockFailed saleId reason pid]
          ∧ (reason = "product_not_found" ∨ reason = "insufficient_stock"))
    ∧ AgriSaga.inv_handle_sale_created (fun n => "mv" ++ toString n) AgriSaga.twoLineState "s1"
        [⟨"p1", 5⟩, ⟨"p2", 3⟩]
      = (AgriSaga.twoLineState,
         [AgriSaga.InvOutEvent.stockFailed "s1" "insufficient_stock" "p2"]) := by
  constructor
  · intro fresh st saleId lines hsid hwf hbad
    have hne : lines ≠ [] := by
      obtain ⟨l, hl, _⟩ := hbad
      intro h; rw [h] at hl; simp at hl
    have hcond : ¬ (saleId = "" ∨ lines = []) := by
      intro h; rcases h with h | h
      · exact hsid h
      · exact hne h
    obtain ⟨pid, reason, hval, hr⟩ := AgriSaga.validate_fail_of_bad st saleId lines hwf hbad
    constructor
    · simp only [AgriSaga.inv_handle_sale_created, if_neg hcond, hval]
    · exact ⟨pid, reason, by simp only [AgriSaga.inv_handle_sale_created, if_neg hcond, hval], hr⟩
  · simp +decide [AgriSaga.inv_handle_sale_created, AgriSaga.validateLines,
      AgriSaga.productExists, AgriSaga.currentStock, AgriSaga.twoLineState,
      List.sum_cons, List.sum_nil]

/-- Witness for C2 at the concrete two-line scenario. -/
theorem inventory_all_or_nothing_witness :
    (AgriSaga.inv_handle_sale_created (fun n => "mv" ++ toString n) AgriSaga.twoLineState "s1"
        [⟨"p1", 5⟩, ⟨"p2", 3⟩]).1 = AgriSaga.twoLineState
    ∧ ∃ pid reason,
        (AgriSaga.inv_handle_sale_created (fun n => "mv" ++ toString n) AgriSaga.twoLineState "s1"
          [⟨"p1", 5⟩, ⟨"p2", 3⟩]).2
          = [AgriSaga.InvOutEvent.stockFailed "s1" reason pid]
        ∧ (reason = "product_not_found" ∨ reason = "insufficient_stock") :=
  inventory_all_or_nothing.1 (fun n => "mv" ++ toString n) AgriSaga.twoLineState "s1"
    [⟨"p1", 5⟩, ⟨"p2", 3⟩] (by decide) (by decide)
    ⟨⟨"p2", 3⟩, by simp, Or.inr (by decide)⟩

/-- C3: delivering the same `sale.created` event to Inventory more than once
produces exactly one set of stock movements.  The consumer acknowledges
without re-running any handler when the event id has already been processed,
and even when the handler re-runs on a redelivered copy with a different
event id, the deterministic idempotency key `sale_sid_pid` makes it find the
existing movements instead of inserting duplicates: re-running
`handle_sale_created` on its own output state leaves the Inventory database
(and hence every computed stock level) unchanged. -/
theorem inventory_idempotent_delivery :
    (∀ (σ π : Type) (handlers : String → Option (σ → AgriSaga.EventEnvelope π → σ))
        (c : AgriSaga.ConsumerState σ) (e : AgriSaga.EventEnvelope π),
      c.processed.contains e.event_id = true →
      AgriSaga.consumerOnMessage σ π handlers c e = (c, AgriSaga.Ack.ack))
    ∧ (∀ (fresh fresh2 : Nat → String) (st : AgriSaga.InvState) (saleId : String)
        (lines : List AgriSaga.SaleLine),
      (AgriSaga.inv_handle_sale_created fresh2
          (AgriSaga.inv_handle_sale_created fresh st saleId lines).1 saleId lines).1
        = (AgriSaga.inv_handle_sale_created fresh st saleId lines).1) := by
  constructor
  · intro σ π handlers c e h
    simp only [AgriSaga.consumerOnMessage, h, if_true]
  · intro fresh fresh2 st saleId lines
    by_cases h0 : saleId = "" ∨ lines = []
    · simp only [AgriSaga.inv_handle_sale_created, if_pos h0]
    · cases hv : AgriSaga.validateLines st saleId lines with
      | silent => simp only [AgriSaga.inv_handle_sale_created, if_neg h0, hv]
      | failEvent ev => simp only [AgriSaga.inv_handle_sale_created, if_neg h0, hv]
      | ok =>
        simp only [AgriSaga.inv_handle_sale_created, if_neg h0, hv]
        cases hv2 : AgriSaga.validateLines
            (AgriSaga.createMovements fresh saleId 0 st lines).1 saleId lines with
        | silent => simp only [hv2]
        | failEvent ev => simp only [hv2]
        | ok =>
          simp only [hv2]
          exact AgriSaga.createMovements_noop fresh2 saleId lines 0 _
            (fun l hl => AgriSaga.createMovements_keys fresh saleId lines 0 st l hl)

/-- Witness for C3: a duplicate event id is skipped by the consumer, and a
concrete replayed `sale.created` leaves the Inventory state unchanged. -/
theorem inventory_idempotent_delivery_witness :
    AgriSaga.consumerOnMessage Unit Unit (fun _ => none)
        ⟨["e1"], ()⟩ ⟨"e1", "sale.created", "t0", "sales-service", "c0", none, ()⟩
      = (⟨["e1"], ()⟩, AgriSaga.Ack.ack)
    ∧ (AgriSaga.inv_handle_sale_created (fun n => "mw" ++ toString n)
          (AgriSaga.inv_handle_sale_created (fun n => "mw" ++ toString n)
            AgriSaga.twoLineState "s1" [⟨"p1", 5⟩]).1 "s1" [⟨"p1", 5⟩]).1
        = (AgriSaga.inv_handle_sale_created (fun n => "mw" ++ toString n)
            AgriSaga.twoLineState "s1" [⟨"p1", 5⟩]).1 :=
  ⟨inventory_idempotent_delivery.1 Unit Unit (fun _ => none)
      ⟨["e1"], ()⟩ ⟨"e1", "sale.created", "t0", "sales-service", "c0", none, ()⟩ (by decide),
    inventory_idempotent_delivery.2 (fun n => "mw" ++ toString n) (fun n => "mw" ++ toString n)
      AgriSaga.twoLineState "s1" [⟨"p1", 5⟩]⟩

/-- C4: the tax computation of the Accounting service is
`int((base_amount * tax_rate) / 10000)` with Python float true division, not
the claimed exact integer floor.  At base 10000 and 10001 (rate 1925) the
float result agrees with the claimed values 1925 and 1925, but at base
200000000000187 the exact quotient 38500000000035.9975 rounds UP to the
nearest double, so the record created by the `sale.created` handler carries
tax amount 38500000000036 while `floor(base*rate/10000)` is 38500000000035:
the code diverges from the claimed no-floating-point formula. -/
theorem tax_float_truncation_divergence :
    AgriSaga.pyTaxAmount 10000 1925 = 1925
    ∧ AgriSaga.pyTaxAmount 10001 1925 = 1925
    ∧ AgriSaga.specTaxAmount 10000 1925 = 1925
    ∧ AgriSaga.specTaxAmount 10001 1925 = 1925
    ∧ ((AgriSaga.acct_handle_sale_created "t1" ⟨[], []⟩ "s1" 200000000000187
          "2024-01-15").1.taxRecords.map (fun r => r.tax_amount)) = [38500000000036]
    ∧ AgriSaga.specTaxAmount 200000000000187 1925 = 38500000000035 := by
  refine ⟨AgriSaga.pyTax_eval_10000, AgriSaga.pyTax_eval_10001, by decide, by decide, ?_, by decide⟩
  have hbig := AgriSaga.pyTax_eval_big
  simp +decide [AgriSaga.acct_handle_sale_created, AgriSaga.insertTaxRecord, hbig]

/-- C6: reversing ledger entry E creates a new entry with debit and credit
swapped, the amount unchanged, referencing E through `reverses_entry_id`,
and sets E's one-way `is_reversed` flag; reversing E a second time fails
with the "Entry already reversed" error and writes nothing. -/
theorem ledger_reversal_correct :
    ∀ (freshId today freshId2 today2 : String) (notes notes2 : Option String)
      (st : AgriSaga.AcctState) (entryId : String) (e : AgriSaga.LedgerEntry),
      st.entries.find? (fun x => x.id == entryId) = some e →
      e.is_reversed = false →
      ∃ (st' : AgriSaga.AcctState) (rev : AgriSaga.LedgerEntry),
        AgriSaga.reverse_ledger_entry freshId today notes st entryId = (st', Except.ok rev)
        ∧ rev.debit_account_id = e.credit_account_id
        ∧ rev.credit_account_id = e.debit_account_id
        ∧ rev.amount = e.amount
        ∧ rev.reverses_entry_id = some entryId
        ∧ st'.entries.find? (fun x => x.id == entryId) = some { e with is_reversed := true }
        ∧ AgriSaga.reverse_ledger_entry freshId2 today2 notes2 st' entryId
            = (st', Except.error ⟨400, "Entry already reversed"⟩) := by
  intro freshId today freshId2 today2 notes notes2 st entryId e hfind hrev
  have hfind' :
      ((st.entries.map (fun x : AgriSaga.LedgerEntry =>
            if x.id == entryId then { x with is_reversed := true } else x))
          ++ [AgriSaga.reversingEntry freshId today entryId e]).find?
        (fun x => x.id == entryId) = some { e with is_reversed := true } :=
    AgriSaga.find?_append_left _ _ _ _
      (AgriSaga.find?_map_update (fun x => x.id == entryId)
        (fun x => { x with is_reversed := true }) st.entries e (fun _ => rfl) hfind)
  refine ⟨{ st with entries :=
      (st.entries.map (fun x => if x.id == entryId then { x with is_reversed := true } else x))
        ++ [AgriSaga.reversingEntry freshId today entryId e] },
    AgriSaga.reversingEntry freshId today entryId e, ?_, rfl, rfl, rfl, rfl, hfind', ?_⟩
  · simp only [AgriSaga.reverse_ledger_entry, hfind, hrev, Bool.false_eq_true, if_false]
  · simp only [AgriSaga.reverse_ledger_entry, hfind']
    rfl

/-- Witness for C6 at a concrete unreversed entry. -/
theorem ledger_reversal_correct_witness :
    ∃ (st' : AgriSaga.AcctState) (rev : AgriSaga.LedgerEntry),
      AgriSaga.reverse_ledger_entry "r1" "2024-02-01" none AgriSaga.acctStateExample "e1"
          = (st', Except.ok rev)
      ∧ rev.debit_account_id = AgriSaga.ledgerEntryExample.credit_account_id
      ∧ rev.credit_account_id = AgriSaga.ledgerEntryExample.debit_account_id
      ∧ rev.amount = AgriSaga.ledgerEntryExample.amount
      ∧ rev.reverses_entry_id = some "e1"
      ∧ st'.entries.find? (fun x => x.id == "e1")
          = some { AgriSaga.ledgerEntryExample with is_reversed := true }
      ∧ AgriSaga.reverse_ledger_entry "r2" "2024-02-02" none st' "e1"
          = (st', Except.error ⟨400, "Entry already reversed"⟩) :=
  ledger_reversal_correct "r1" "2024-02-01" "r2" "2024-02-02" none none
    AgriSaga.acctStateExample "e1" AgriSaga.ledgerEntryExample (by decide) rfl

/-- C8 counterexample: the Accounting `sale.created` handler performs no
lookup of an existing tax record; redelivered against a state that already
contains the record for sale s1 (key `sale_s1_tva`), the insert violates the
unique constraint and the handler FAILS instead of detecting and ignoring
the duplicate as the claim states. -/
theorem acct_redelivery_not_noop_cex :
    AgriSaga.acct_handle_sale_created "t1" AgriSaga.acctStateWithTax "s1" 10000 "2024-01-15"
      = (AgriSaga.acctStateWithTax, Except.error AgriSaga.DbError.uniqueViolation) := by
  simp +decide [AgriSaga.acct_handle_sale_created, AgriSaga.insertTaxRecord,
    AgriSaga.acctStateWithTax, AgriSaga.taxRecordExample]

/-- C8 as amended: when the handler re-runs against a state already holding
the tax record for the sale, the unique constraint on the idempotency key
still prevents a second record (the state is unchanged, so exactly one
record remains), but the handler raises a uniqueness violation — the
redelivery is only harmless at the consumer level (same event id skipped),
not detected inside the handler. -/
theorem acct_redelivery_unique_violation :
    ∀ (freshTaxId : String) (st : AgriSaga.AcctState) (saleId : String)
      (total_ht : Int) (saleDate : String),
      saleId ≠ "" → total_ht ≠ 0 → saleDate ≠ "" →
      st.taxRecords.any
          (fun x => x.idempotency_key == some ("sale_" ++ saleId ++ "_tva")) = true →
      AgriSaga.acct_handle_sale_created freshTaxId st saleId total_ht saleDate
        = (st, Except.error AgriSaga.DbError.uniqueViolation) := by
  intro freshTaxId st saleId total_ht saleDate h1 h2 h3 hany
  have hcond : ¬ (saleId = "" ∨ total_ht = 0 ∨ saleDate = "") := by
    intro h; rcases h with h | h | h
    · exact h1 h
    · exact h2 h
    · exact h3 h
  simp only [AgriSaga.acct_handle_sale_created, if_neg hcond, AgriSaga.insertTaxRecord, hany,
    if_true]

/-- Witness for the amended C8 at the concrete pre-populated state. -/
theorem acct_redelivery_unique_violation_witness :
    AgriSaga.acct_handle_sale_created "t9" AgriSaga.acctStateWithTax "s1" 777 "2024-02-15"
      = (AgriSaga.acctStateWithTax, Except.error AgriSaga.DbError.uniqueViolation) :=
  acct_redelivery_unique_violation "t9" AgriSaga.acctStateWithTax "s1" 777 "2024-02-15"
    (by decide) (by decide) (by decide) (by decide)

/-- C5 counterexample: the sale `s1` carries the saga correlation id `corr0`,
but the `stock.decremented` outcome event the Inventory handler publishes
for it (publish call without a `correlation_id` argument) carries the
freshly generated id `f9`, not `corr0` — the correlation id is NOT stable
across the saga. -/
theorem correlation_id_not_propagated_cex :
    AgriSaga.pendingSaleExample.id = "s1"
    ∧ AgriSaga.pendingSaleExample.correlation_id = some "corr0"
    ∧ (AgriSaga.inventoryPublishOutcome "e7" "f9" "t7"
        (AgriSaga.InvOutEvent.stockDecremented "s1" ["m1"])).correlation_id = "f9"
    ∧ "f9" ≠ "corr0" :=
  ⟨rfl, rfl, rfl, by decide⟩

/-- C5 as amended: the correlation id generated at sale creation is carried
by the events Sales itself publishes with it (`sale.created`), but the
Inventory outcome events `stock.decremented` and `stock.failed` are
published without a correlation id, so each carries a freshly generated one
instead of the sale's. -/
theorem correlation_id_amended :
    (∀ (π : Type) (fid fcorr occ : String) (payload : π) (corr : String)
        (idem : Option String), corr ≠ "" →
      (AgriSaga.salesPublishSaleCreated π fid fcorr occ payload corr idem).correlation_id = corr)
    ∧ (∀ (fid fcorr occ : String) (ev : AgriSaga.InvOutEvent),
      (AgriSaga.inventoryPublishOutcome fid fcorr occ ev).correlation_id = fcorr) := by
  constructor
  · intro π fid fcorr occ payload corr idem h
    simp only [AgriSaga.salesPublishSaleCreated, AgriSaga.publish_event, if_neg h]
  · intro fid fcorr occ ev
    rfl

/-- Witness for the amended C5 at concrete envelopes. -/
theorem correlation_id_amended_witness :
    (AgriSaga.salesPublishSaleCreated Unit "e1" "f1" "t1" () "corr0" none).correlation_id = "corr0"
    ∧ (AgriSaga.inventoryPublishOutcome "e2" "f2" "t2"
        (AgriSaga.InvOutEvent.stockFailed "s1" "insufficient_stock" "p2")).correlation_id = "f2" :=
  ⟨correlation_id_amended.1 Unit "e1" "f1" "t1" () "corr0" none (by decide),
    correlation_id_amended.2 "e2" "f2" "t2"
      (AgriSaga.InvOutEvent.stockFailed "s1" "insufficient_stock" "p2")⟩

/-- C7 counterexample: the Sales database already holds the sale created by
a first `POST /sales` with idempotency key `idem1`; a second request with
the same key but a different body naming the nonexistent customer `c9` does
NOT return the original sale — it fails with 404, because the idempotency
lookup runs only after the customer check. -/
theorem sale_idempotency_different_body_cex :
    AgriSaga.saleWithKeyExample.idempotency_key = some "idem1"
    ∧ AgriSaga.saleWithKeyExample ∈ AgriSaga.salesStateWithKey.sales
    ∧ AgriSaga.create_sale "s9" "corr9" "VTE-20240118-0001" (200, 38, 238)
        AgriSaga.salesStateWithKey ⟨"c9", "2024-01-18", [⟨"p1", "PC", "PN", 1, 100, 1925/100⟩],
          some "idem1"⟩
      = (AgriSaga.salesStateWithKey, Except.error ⟨404, "Customer not found"⟩) := by
  refine ⟨rfl, by simp [AgriSaga.salesStateWithKey], ?_⟩
  simp +decide [AgriSaga.create_sale, AgriSaga.salesStateWithKey]

/-- C7 as amended: a second `POST /sales` carrying the idempotency key of an
already-created sale returns that original sale, provided the second request
also passes the validations that run before the lookup — its customer exists
and its lines are nonempty; with a different body failing those validations
the request errors instead. -/
theorem sale_idempotency_amended :
    ∀ (a b c : String) (t : Int × Int × Int) (a2 b2 c2 : String) (t2 : Int × Int × Int)
      (st st1 : AgriSaga.SalesState) (req1 req2 : AgriSaga.SaleCreateReq)
      (key : String) (s : AgriSaga.Sale),
      AgriSaga.create_sale a b c t st req1 = (st1, Except.ok s) →
      req1.idempotency_key = some key → key ≠ "" →
      req2.idempotency_key = some key →
      st1.customers.any (fun x => x.id == req2.customer_id) = true →
      req2.lines ≠ [] →
      AgriSaga.create_sale a2 b2 c2 t2 st1 req2 = (st1, Except.ok s) := by
  intro a b c t a2 b2 c2 t2 st st1 req1 req2 key s h1 hk1 hk hk2 hcust2 hlines2
  unfold AgriSaga.create_sale at h1
  by_cases hc1 : st.customers.any (fun x => x.id == req1.customer_id) = false
  · rw [if_pos hc1, Prod.mk.injEq] at h1
    exact absurd h1.2 (by simp)
  · by_cases hl1 : req1.lines = []
    · rw [if_neg hc1, if_pos hl1, Prod.mk.injEq] at h1
      exact absurd h1.2 (by simp)
    · have hsk1 : AgriSaga.saleByKey st req1.idempotency_key
          = st.sales.find? (fun x => x.idempotency_key == some key) := by
        rw [hk1]; simp only [AgriSaga.saleByKey, if_neg hk]
      rw [if_neg hc1, if_neg hl1, hsk1] at h1
      cases hfind : st.sales.find? (fun x => x.idempotency_key == some key) with
      | some existing =>
        rw [hfind] at h1
        simp only [Prod.mk.injEq, Except.ok.injEq] at h1
        obtain ⟨hst, hs⟩ := h1
        subst hst; subst hs
        have hsk2 : AgriSaga.saleByKey st req2.idempotency_key = some existing := by
          rw [hk2]; simp only [AgriSaga.saleByKey, if_neg hk, hfind]
        simp only [AgriSaga.create_sale, hcust2, Bool.true_eq_false, if_false,
          if_neg hlines2, hsk2]
      | none =>
        rw [hfind] at h1
        simp only [Prod.mk.injEq, Except.ok.injEq] at h1
        obtain ⟨hst, hs⟩ := h1
        subst hst; subst hs
        have hfind2 : st.sales.find? (fun x => x.idempotency_key == some key) = none := hfind
        have hfind' :
            (st.sales ++ [AgriSaga.createdSale a b c t req1]).find?
              (fun x => x.idempotency_key == some key)
              = some (AgriSaga.createdSale a b c t req1) := by
          rw [AgriSaga.find?_append_right _ _ _ hfind2]
          simp [AgriSaga.createdSale, hk1]
        have hsk2 : AgriSaga.saleByKey
            { st with sales := st.sales ++ [AgriSaga.createdSale a b c t req1] }
            req2.idempotency_key = some (AgriSaga.createdSale a b c t req1) := by
          rw [hk2]; simp only [AgriSaga.saleByKey, if_neg hk]
          exact hfind'
        simp only [AgriSaga.create_sale, hcust2, Bool.true_eq_false, if_false,
          if_neg hlines2, hsk2]

/-- Witness for the amended C7: the first call creates a sale under key
`idem2`, the second call with the same key and a valid body returns it. -/
theorem sale_idempotency_amended_witness :
    AgriSaga.create_sale "sB" "corrB" "VTE-B" (7, 1, 8)
        (AgriSaga.create_sale "sA" "corrA" "VTE-A" (5, 1, 6) AgriSaga.salesStateWithKey
          ⟨"c1", "2024-01-19", [⟨"p1", "PC", "PN", 1, 5, 1925/100⟩], some "idem2"⟩).1
        ⟨"c1", "2024-01-20", [⟨"p1", "PC", "PN", 2, 9, 1925/100⟩], some "idem2"⟩
      = ((AgriSaga.create_sale "sA" "corrA" "VTE-A" (5, 1, 6) AgriSaga.salesStateWithKey
          ⟨"c1", "2024-01-19", [⟨"p1", "PC", "PN", 1, 5, 1925/100⟩], some "idem2"⟩).1,
         Except.ok (AgriSaga.createdSale "sA" "corrA" "VTE-A" (5, 1, 6)
          ⟨"c1", "2024-01-19", [⟨"p1", "PC", "PN", 1, 5, 1925/100⟩], some "idem2"⟩)) :=
  sale_idempotency_amended "sA" "corrA" "VTE-A" (5, 1, 6) "sB" "corrB" "VTE-B" (7, 1, 8)
    AgriSaga.salesStateWithKey
    (AgriSaga.create_sale "sA" "corrA" "VTE-A" (5, 1, 6) AgriSaga.salesStateWithKey
      ⟨"c1", "2024-01-19", [⟨"p1", "PC", "PN", 1, 5, 1925/100⟩], some "idem2"⟩).1
    ⟨"c1", "2024-01-19", [⟨"p1", "PC", "PN", 1, 5, 1925/100⟩], some "idem2"⟩
    ⟨"c1", "2024-01-20", [⟨"p1", "PC", "PN", 2, 9, 1925/100⟩], some "idem2"⟩
    "idem2"
    (AgriSaga.createdSale "sA" "corrA" "VTE-A" (5, 1, 6)
      ⟨"c1", "2024-01-19", [⟨"p1", "PC", "PN", 1, 5, 1925/100⟩], some "idem2"⟩)
    rfl rfl (by decide) rfl (by decide) (by decide)

/-- C9: a `sale.created` payload with two lines for the same product yields
only ONE stock movement (for the first line's quantity — the second line's
quantity is never decremented), because the idempotency key
`sale_{sale_id}_{product_id}` does not distinguish lines; the published
`movement_ids` list repeats the same movement id once per line. -/
theorem duplicate_product_lines_single_movement :
    ∀ (fresh : Nat → String) (st : AgriSaga.InvState) (saleId pid : String) (q1 q2 : Rat),
      saleId ≠ "" → pid ≠ "" →
      AgriSaga.productExists st pid = true →
      0 < q1 → 0 < q2 →
      q1 ≤ AgriSaga.currentStock st pid → q2 ≤ AgriSaga.currentStock st pid →
      AgriSaga.findMovByKey st.movements (AgriSaga.movKey saleId pid) = none →
      AgriSaga.inv_handle_sale_created fresh st saleId [⟨pid, q1⟩, ⟨pid, q2⟩]
        = ({ st with movements :=
              st.movements ++ [AgriSaga.saleMovement (fresh 0) saleId pid q1] },
           [AgriSaga.InvOutEvent.stockDecremented saleId [fresh 0, fresh 0]]) := by
  intro fresh st saleId pid q1 q2 hsid hpid hpe hq1 hq2 hle1 hle2 hnone
  have hcond : ¬ (saleId = "" ∨ ([⟨pid, q1⟩, ⟨pid, q2⟩] : List AgriSaga.SaleLine) = []) := by
    simp [hsid]
  have hval : AgriSaga.validateLines st saleId [⟨pid, q1⟩, ⟨pid, q2⟩]
      = AgriSaga.ValidRes.ok := by
    simp only [AgriSaga.validateLines, if_neg hpid, if_neg (not_le.mpr hq1),
      if_neg (not_le.mpr hq2), hpe, Bool.true_eq_false, if_false,
      if_neg (not_lt.mpr hle1), if_neg (not_lt.mpr hle2)]
  have hkey2 : AgriSaga.findMovByKey
      (st.movements ++ [AgriSaga.saleMovement (fresh 0) saleId pid q1])
      (AgriSaga.movKey saleId pid) = some (AgriSaga.saleMovement (fresh 0) saleId pid q1) := by
    unfold AgriSaga.findMovByKey at hnone ⊢
    rw [AgriSaga.find?_append_right _ _ _ hnone]
    simp [AgriSaga.saleMovement]
  simp only [AgriSaga.inv_handle_sale_created, if_neg hcond, hval, AgriSaga.createMovements,
    hnone, hkey2]
  rfl

/-- Witness for C9: two lines for product `p1` (quantities 5 and 3) against
10 units of stock produce one movement of -5 and a repeated movement id. -/
theorem duplicate_product_lines_single_movement_witness :
    AgriSaga.inv_handle_sale_created (fun n => "mx" ++ toString n) AgriSaga.twoLineState "s2"
        [⟨"p1", 5⟩, ⟨"p1", 3⟩]
      = ({ AgriSaga.twoLineState with movements :=
            AgriSaga.twoLineState.movements
              ++ [AgriSaga.saleMovement ("mx" ++ toString 0) "s2" "p1" 5] },
         [AgriSaga.InvOutEvent.stockDecremented "s2" ["mx" ++ toString 0, "mx" ++ toString 0]]) :=
  duplicate_product_lines_single_movement (fun n => "mx" ++ toString n) AgriSaga.twoLineState
    "s2" "p1" 5 3 (by decide) (by decide) (by decide) (by decide) (by decide)
    (by simp +decide [AgriSaga.currentStock, AgriSaga.twoLineState, List.sum_cons, List.sum_nil])
    (by simp +decide [AgriSaga.currentStock, AgriSaga.twoLineState, List.sum_cons, List.sum_nil])
    (by decide)

/-- C10: in `POST /sales` the idempotency lookup runs only after the
customer-existence and non-empty-lines validations: a repeated request that
carries the idempotency key of an existing sale but references a nonexistent
customer fails with 404, and one with an empty lines list fails with 400,
instead of returning the originally created sale; in both cases no new sale
is created. -/
theorem create_sale_validation_order :
    (∀ (a b c : String) (t : Int × Int × Int) (st : AgriSaga.SalesState)
        (req : AgriSaga.SaleCreateReq),
      (∃ s ∈ st.sales, s.idempotency_key = req.idempotency_key ∧ req.idempotency_key ≠ none) →
      st.customers.any (fun x => x.id == req.customer_id) = false →
      AgriSaga.create_sale a b c t st req
        = (st, Except.error ⟨404, "Customer not found"⟩))
    ∧ (∀ (a b c : String) (t : Int × Int × Int) (st : AgriSaga.SalesState)
        (req : AgriSaga.SaleCreateReq),
      (∃ s ∈ st.sales, s.idempotency_key = req.idempotency_key ∧ req.idempotency_key ≠ none) →
      st.customers.any (fun x => x.id == req.customer_id) = true →
      req.lines = [] →
      AgriSaga.create_sale a b c t st req
        = (st, Except.error ⟨400, "Sale must have at least one line"⟩)) := by
  constructor
  · intro a b c t st req _ hcust
    simp [AgriSaga.create_sale, hcust]
  · intro a b c t st req _ hcust hl
    simp [AgriSaga.create_sale, hcust, hl]

/-- Witness for C10 at the concrete pre-populated state: the same stored key
`idem1` is ignored when the customer is missing (404) or the lines are empty
(400). -/
theorem create_sale_validation_order_witness :
    AgriSaga.create_sale "sC" "corrC" "VTE-C" (0, 0, 0) AgriSaga.salesStateWithKey
        ⟨"c9", "2024-01-17", [], some "idem1"⟩
      = (AgriSaga.salesStateWithKey, Except.error ⟨404, "Customer not found"⟩)
    ∧ AgriSaga.create_sale "sD" "corrD" "VTE-D" (0, 0, 0) AgriSaga.salesStateWithKey
        ⟨"c1", "2024-01-17", [], some "idem1"⟩
      = (AgriSaga.salesStateWithKey, Except.error ⟨400, "Sale must have at least one line"⟩) :=
  ⟨create_sale_validation_order.1 "sC" "corrC" "VTE-C" (0, 0, 0) AgriSaga.salesStateWithKey
      ⟨"c9", "2024-01-17", [], some "idem1"⟩ (by decide) (by decide),
    create_sale_validation_order.2 "sD" "corrD" "VTE-D" (0, 0, 0) AgriSaga.salesStateWithKey
      ⟨"c1", "2024-01-17", [], some "idem1"⟩ (by decide) (by decide) rfl⟩
